import Mathlib

/-!
Shallow embedding of the PowerBlog Flask application (src/main.py) and proofs
of its specification's claims.

The data model (User / BlogPost / Comment) follows the SQLAlchemy model classes
at src/main.py lines 61-100.  The persistence store is modelled as lists of
rows plus autoincrement counters; `find?` over a list models a primary-key or
filtered `SELECT ... LIMIT`-style lookup (`db.get_or_404`, `.scalar()` both
return the first matching row or nothing).

The current identity (`flask_login.current_user`) is modelled as
`Option Nat`: `none` is the anonymous user (`is_authenticated = False`),
`some uid` an authenticated user with that id.

Each route handler is a pure function from the current identity, the store and
the request data to a `HandlerResult` holding the HTTP response, the flashed
messages of that request, the resulting session identity and the resulting
store.  Form submission is modelled as an `Option` argument: `none` is a GET
request or a submission that fails WTForms validation (the code's
`validate_on_submit()` returning False, which just re-renders the template),
`some fields` a validated POST.  The form classes themselves live in the
repository's `forms.py`, which the spec describes as purely structural
field validation with no database lookups; only the validated/not-validated
outcome matters to the handlers, so that outcome is the abstraction here.

Library calls are modelled as follows:
* `werkzeug.security.generate_password_hash` / `check_password_hash` are
  abstracted as function parameters `g : String → String` and
  `verify : String → String → Bool` (hash, password); they are opaque
  cryptographic primitives.
* `date.today().strftime(...)` is passed in as a `today : String` parameter.
* the SMTP send in `contact` is passed in as the outcome
  `Except String Unit` of `smtplib` (error carries the exception text).
* SQLAlchemy session semantics: `db.session.delete(post)` on a `BlogPost`
  whose `comments` relationship (main.py line 87) declares NO delete cascade
  causes SQLAlchemy, at flush time, to null out `Comment.post_id` on every
  child comment; since `post_id : Mapped[int]` (line 99) is a NOT NULL
  column, that flush raises IntegrityError, the transaction is rolled back
  and Flask answers 500.  `delete_post` below encodes exactly this: deleting
  a post that still has comments is a server error that leaves the store
  unchanged.  Unique constraints (`User.email`, `BlogPost.title`) are likewise
  enforced at commit: an insert/update violating them is a server error.
-/

namespace PowerBlog

/-- A row of the `user` table (main.py lines 61-70). -/
structure User where
  id : Nat
  name : String
  email : String
  password : String
deriving Repr, DecidableEq

/-- A row of the `blog_posts` table (main.py lines 73-87). -/
structure BlogPost where
  id : Nat
  title : String
  subtitle : String
  date : String
  body : String
  img_url : String
  author_id : Nat
deriving Repr, DecidableEq

/-- A row of the `comments` table (main.py lines 90-100). -/
structure Comment where
  id : Nat
  text : String
  author_id : Nat
  post_id : Nat
deriving Repr, DecidableEq

/-- The relational store: the three tables plus the autoincrement counters
for their integer primary keys. -/
structure Store where
  users : List User
  posts : List BlogPost
  comments : List Comment
  nextUserId : Nat
  nextPostId : Nat
  nextCommentId : Nat
deriving Repr, DecidableEq

/-- An HTTP response as the handlers produce it: `abort code` from
`flask.abort`, a redirect to a path, a template render (a 200), or
`serverError` for an exception that escapes the handler (Flask's 500). -/
inductive Response where
  | abort (code : Nat)
  | redirect (target : String)
  | render (template : String)
  | serverError
deriving Repr, DecidableEq

/-- The observable outcome of one request: the response, the messages flashed
during the request, the session identity afterwards, and the store
afterwards. -/
structure HandlerResult where
  response : Response
  flashes : List String
  session : Option Nat
  store : Store
deriving Repr, DecidableEq

/-- The path `url_for` produces for `show_post` with a given post id
(route `/post/<int:post_id>`, main.py line 157). -/
def url_show_post (post_id : Nat) : String :=
  "/post/" ++ toString post_id

/-- The `admin_only` decorator (main.py lines 120-129): the wrapped handler
body runs only when `current_user.is_authenticated and current_user.id == 1`;
otherwise the request is aborted with 403 and nothing else happens. -/
def admin_only (current : Option Nat) (s : Store)
    (body : Unit → HandlerResult) : HandlerResult :=
  if current == some 1 then body ()
  else ⟨Response.abort 403, [], current, s⟩

/-- The `only_commenter` decorator (main.py lines 132-142): fetch the comment
(`db.get_or_404`, 404 when absent), then 403 unless the current identity is
authenticated and is the comment's author; otherwise run the body. -/
def only_commenter (current : Option Nat) (s : Store) (comment_id : Nat)
    (body : Unit → HandlerResult) : HandlerResult :=
  match s.comments.find? (fun c => c.id == comment_id) with
  | none => ⟨Response.abort 404, [], current, s⟩
  | some comment =>
      if current == some comment.author_id then body ()
      else ⟨Response.abort 403, [], current, s⟩

/-- Fields of a validated `CreatePostForm` submission. -/
structure PostForm where
  title : String
  subtitle : String
  img_url : String
  body : String
deriving Repr, DecidableEq

/-- Fields of a validated `RegisterForm` submission. -/
structure RegisterForm where
  name : String
  email : String
  password : String
deriving Repr, DecidableEq

/-- The `show_post` handler (main.py lines 157-173): fetch the post or 404;
on a validated comment submission, an anonymous visitor is flashed a
must-login message and redirected to the login page with nothing persisted,
while an authenticated user gets a new `Comment` row (author = current user,
parent = the requested post) and the page re-rendered. -/
def show_post (current : Option Nat) (s : Store) (post_id : Nat)
    (commentForm? : Option String) : HandlerResult :=
  match s.posts.find? (fun p => p.id == post_id) with
  | none => ⟨Response.abort 404, [], current, s⟩
  | some post =>
      match commentForm? with
      | none => ⟨Response.render "post.html", [], current, s⟩
      | some text =>
          match current with
          | none =>
              ⟨Response.redirect "/login",
               ["You need to login or register to comment."], none, s⟩
          | some uid =>
              ⟨Response.render "post.html", [], some uid,
               { s with
                  comments :=
                    s.comments ++ [⟨s.nextCommentId, text, uid, post.id⟩],
                  nextCommentId := s.nextCommentId + 1 }⟩

/-- The `register` handler (main.py lines 176-199), with
`generate_password_hash` (pbkdf2:sha256, salt_length 8) abstracted as `g`:
if a user with the submitted email already exists, flash and redirect to
login without touching the store or calling `g`; otherwise insert a new
`User` whose password column holds `g password`, log the new user in and
redirect to the post list. -/
def register (g : String → String) (current : Option Nat) (s : Store)
    (form? : Option RegisterForm) : HandlerResult :=
  match form? with
  | none => ⟨Response.render "register.html", [], current, s⟩
  | some f =>
      match s.users.find? (fun u => u.email == f.email) with
      | some _ =>
          ⟨Response.redirect "/login",
           ["User already exists, please log in."], current, s⟩
      | none =>
          let newUser : User := ⟨s.nextUserId, f.name, f.email, g f.password⟩
          ⟨Response.redirect "/", [], some newUser.id,
           { s with users := s.users ++ [newUser],
                    nextUserId := s.nextUserId + 1 }⟩

/-- The `login` handler (main.py lines 202-220), with `check_password_hash`
abstracted as `verify` (stored hash, submitted password): look the user up by
email; unknown email or failing hash check flashes a message and redirects
back to the login page with no session change; otherwise `login_user` and
redirect to the post list. -/
def login (verify : String → String → Bool) (current : Option Nat) (s : Store)
    (form? : Option (String × String)) : HandlerResult :=
  match form? with
  | none => ⟨Response.render "login.html", [], current, s⟩
  | some (email, password) =>
      match s.users.find? (fun u => u.email == email) with
      | none =>
          ⟨Response.redirect "/login",
           ["That email does not exist. Please try again."], current, s⟩
      | some user =>
          if verify user.password password then
            ⟨Response.redirect "/", [], some user.id, s⟩
          else
            ⟨Response.redirect "/login",
             ["Invalid password. Please try again."], current, s⟩

/-- Body of the `add_new_post` handler (main.py lines 232-247), i.e. the part
inside the `admin_only` decorator: on a validated form, insert a `BlogPost`
whose date column is stamped with today's date and whose author is the
current user, then redirect to the list; a duplicate title violates the
unique constraint on `BlogPost.title` at commit (server error, nothing
written). -/
def add_new_post_body (today : String) (current : Option Nat) (s : Store)
    (form? : Option PostForm) : HandlerResult :=
  match form? with
  | none => ⟨Response.render "make-post.html", [], current, s⟩
  | some f =>
      if s.posts.any (fun p => p.title == f.title) then
        ⟨Response.serverError, [], current, s⟩
      else
        ⟨Response.redirect "/", [], current,
         { s with
            posts := s.posts ++
              [⟨s.nextPostId, f.title, f.subtitle, today, f.body, f.img_url,
                current.getD 0⟩],
            nextPostId := s.nextPostId + 1 }⟩

/-- The `add_new_post` route: `admin_only` wrapping `add_new_post_body`. -/
def add_new_post (today : String) (current : Option Nat) (s : Store)
    (form? : Option PostForm) : HandlerResult :=
  admin_only current s (fun _ => add_new_post_body today current s form?)

/-- The single-row update `edit_post` performs on the matching post
(main.py lines 262-265): overwrite title, subtitle, img_url and body from the
form; every other column (id, date, author_id) is untouched. -/
def apply_edit (f : PostForm) (post_id : Nat) (p : BlogPost) : BlogPost :=
  if p.id == post_id then
    { p with title := f.title, subtitle := f.subtitle,
             img_url := f.img_url, body := f.body }
  else p

/-- Body of the `edit_post` handler (main.py lines 252-268): fetch the post or
404; on a validated form, update the post's four form-backed columns and
redirect to the post's view page; a title clashing with a different post
violates the unique constraint at commit (server error, nothing written). -/
def edit_post_body (current : Option Nat) (s : Store) (post_id : Nat)
    (form? : Option PostForm) : HandlerResult :=
  match s.posts.find? (fun p => p.id == post_id) with
  | none => ⟨Response.abort 404, [], current, s⟩
  | some post =>
      match form? with
      | none => ⟨Response.render "make-post.html", [], current, s⟩
      | some f =>
          if s.posts.any (fun p => (!(p.id == post.id)) && p.title == f.title) then
            ⟨Response.serverError, [], current, s⟩
          else
            ⟨Response.redirect (url_show_post post.id), [], current,
             { s with posts := s.posts.map (apply_edit f post.id) }⟩

/-- The `edit_post` route: `admin_only` wrapping `edit_post_body`. -/
def edit_post (current : Option Nat) (s : Store) (post_id : Nat)
    (form? : Option PostForm) : HandlerResult :=
  admin_only current s (fun _ => edit_post_body current s post_id form?)

/-- Body of the `delete_post` handler (main.py lines 273-278): fetch the post
or 404, `db.session.delete` it and commit.  The `comments` relationship
declares no delete cascade and `Comment.post_id` is NOT NULL, so when the
post still has comments the commit's attempt to null the children's
`post_id` raises IntegrityError: the request 500s and the store is
unchanged.  Only a post without comments is actually removed. -/
def delete_post_body (current : Option Nat) (s : Store) (post_id : Nat) :
    HandlerResult :=
  match s.posts.find? (fun p => p.id == post_id) with
  | none => ⟨Response.abort 404, [], current, s⟩
  | some post =>
      if s.comments.any (fun c => c.post_id == post.id) then
        ⟨Response.serverError, [], current, s⟩
      else
        ⟨Response.redirect "/", [], current,
         { s with posts := s.posts.filter (fun p => !(p.id == post.id)) }⟩

/-- The `delete_post` route: `admin_only` wrapping `delete_post_body`. -/
def delete_post (current : Option Nat) (s : Store) (post_id : Nat) :
    HandlerResult :=
  admin_only current s (fun _ => delete_post_body current s post_id)

/-- Body of the `delete_comment` handler (main.py lines 283-288): fetch the
comment again (the guard already found it), delete it and redirect to the
parent post's page. -/
def delete_comment_body (current : Option Nat) (s : Store)
    (comment_id post_id : Nat) : HandlerResult :=
  match s.comments.find? (fun c => c.id == comment_id) with
  | none => ⟨Response.abort 404, [], current, s⟩
  | some _ =>
      ⟨Response.redirect (url_show_post post_id), [], current,
       { s with comments := s.comments.filter (fun c => !(c.id == comment_id)) }⟩

/-- The `delete_comment` route: `only_commenter` wrapping
`delete_comment_body`. -/
def delete_comment (current : Option Nat) (s : Store)
    (comment_id post_id : Nat) : HandlerResult :=
  only_commenter current s comment_id
    (fun _ => delete_comment_body current s comment_id post_id)

/-- The `contact` handler (main.py lines 296-318).  `send? = none` models a
GET request; `send? = some r` a POST whose SMTP attempt had outcome `r`
(`Except.error e` carries the raised exception's text `e`).  Success flashes
the success message; any exception is caught and flashed with the exception
text interpolated; either way the contact template is rendered. -/
def contact (send? : Option (Except String Unit)) (current : Option Nat)
    (s : Store) : HandlerResult :=
  match send? with
  | none => ⟨Response.render "contact.html", [], current, s⟩
  | some (Except.ok _) =>
      ⟨Response.render "contact.html",
       ["Your message was sent successfully!"], current, s⟩
  | some (Except.error e) =>
      ⟨Response.render "contact.html",
       ["❌ Failed to send message: " ++ e], current, s⟩

/-- Store invariant used by the login claim: the unique constraint on
`User.email` (main.py line 65) — two user rows with the same email are the
same row. -/
def emailsUnique (s : Store) : Prop :=
  ∀ u1 ∈ s.users, ∀ u2 ∈ s.users, u1.email = u2.email → u1 = u2

instance (s : Store) : Decidable (emailsUnique s) := by
  unfold emailsUnique
  exact List.decidableBAll _ s.users

/-- A small concrete store used to instantiate the theorems: the admin
(user 1), a second user, one post by the admin, one comment by user 2 on
post 1. -/
def store1 : Store :=
  { users := [⟨1, "Admin", "admin@blog.com", "H1"⟩,
              ⟨2, "Bea", "bea@blog.com", "H2"⟩],
    posts := [⟨1, "First", "sub", "January 01, 2025", "body", "img", 1⟩],
    comments := [⟨1, "nice", 2, 1⟩],
    nextUserId := 3, nextPostId := 2, nextCommentId := 2 }

/-- The post row stored in `store1`. -/
def postW : BlogPost := ⟨1, "First", "sub", "January 01, 2025", "body", "img", 1⟩

/-- A store with no rows at all. -/
def storeEmpty : Store :=
  { users := [], posts := [], comments := [],
    nextUserId := 1, nextPostId := 1, nextCommentId := 1 }

/-- A concrete stand-in for `check_password_hash`: accepts exactly the stored
hash "H1" together with the password "pw". -/
def verifyW : String → String → Bool := fun h p => h == "H1" && p == "pw"

/-- A concrete validated post form. -/
def formW : PostForm := ⟨"New title", "new sub", "new img", "new body"⟩

/-- A store with two posts, used to exercise the unique-title constraint. -/
def store2 : Store :=
  { users := [⟨1, "Admin", "admin@blog.com", "H1"⟩],
    posts := [⟨1, "First", "sub", "January 01, 2025", "body", "img", 1⟩,
              ⟨2, "Second", "sub2", "January 02, 2025", "body2", "img2", 1⟩],
    comments := [],
    nextUserId := 2, nextPostId := 3, nextCommentId := 1 }

/-- C1: the claimed cascade does not happen.  In `store1` the admin deletes
post 1, which has comment 1 attached; because the `comments` relationship
configures no delete cascade and `Comment.post_id` is non-nullable, the
commit raises IntegrityError: the request ends in a server error, the store
is unchanged, and a comment with parent post 1 is still queryable. -/
theorem delete_post_does_not_cascade :
    (delete_post (some 1) store1 1).response = Response.serverError ∧
    (delete_post (some 1) store1 1).store = store1 ∧
    ∃ c ∈ (delete_post (some 1) store1 1).store.comments, c.post_id = 1 := by
  refine ⟨by decide, by decide, ⟨1, "nice", 2, 1⟩, by decide, by decide⟩

/-- C2: the create-post, edit-post and delete-post routes run their handler
body iff the current identity is authenticated with identifier 1; every
other caller (other users or anonymous) is answered 403 with no flash, no
session change and no store change, and the body never runs. -/
theorem admin_routes_guarded (today : String) (current : Option Nat)
    (s : Store) (pf : Option PostForm) (pid : Nat) :
    (current = some 1 →
      add_new_post today current s pf = add_new_post_body today current s pf ∧
      edit_post current s pid pf = edit_post_body current s pid pf ∧
      delete_post current s pid = delete_post_body current s pid) ∧
    (current ≠ some 1 →
      add_new_post today current s pf = ⟨Response.abort 403, [], current, s⟩ ∧
      edit_post current s pid pf = ⟨Response.abort 403, [], current, s⟩ ∧
      delete_post current s pid = ⟨Response.abort 403, [], current, s⟩) := by
  constructor
  · intro h
    subst h
    exact ⟨rfl, rfl, rfl⟩
  · intro h
    have hb : (current == some 1) = false := by
      simpa using h
    simp [add_new_post, edit_post, delete_post, admin_only, hb]

/-- Witness for C2 at a concrete non-admin caller (user 2). -/
theorem admin_routes_guarded_witness :
    add_new_post "d" (some 2) store1 none
      = ⟨Response.abort 403, [], some 2, store1⟩ ∧
    edit_post (some 2) store1 1 none
      = ⟨Response.abort 403, [], some 2, store1⟩ ∧
    delete_post (some 2) store1 1
      = ⟨Response.abort 403, [], some 2, store1⟩ :=
  (admin_routes_guarded "d" (some 2) store1 none 1).2 (by decide)

/-- C10: on the admin-guarded per-post routes the admin check runs before the
post lookup — a non-admin gets 403 even for a nonexistent post id, while the
admin gets 404 there — whereas on the delete-comment route the comment
lookup runs first: a nonexistent comment id yields 404 for every caller. -/
theorem guard_order_admin_routes (current : Option Nat) (s : Store)
    (pid cid pid2 : Nat) (pf : Option PostForm) :
    (current ≠ some 1 →
      (edit_post current s pid pf).response = Response.abort 403 ∧
      (delete_post current s pid).response = Response.abort 403) ∧
    (s.posts.find? (fun p => p.id == pid) = none →
      (edit_post (some 1) s pid pf).response = Response.abort 404 ∧
      (delete_post (some 1) s pid).response = Response.abort 404) ∧
    (s.comments.find? (fun c => c.id == cid) = none →
      (delete_comment current s cid pid2).response = Response.abort 404) := by
  refine ⟨fun h => ?_, fun h => ?_, fun h => ?_⟩
  · have hb : (current == some 1) = false := by simpa using h
    simp [edit_post, delete_post, admin_only, hb]
  · simp [edit_post, delete_post, admin_only, edit_post_body, delete_post_body, h]
  · simp [delete_comment, only_commenter, h]

/-- Witness for C10: in the empty store, post id 7 and comment id 7 do not
exist; a non-admin gets 403 on the post routes, the admin gets 404 there,
and delete-comment gives 404 to an anonymous caller. -/
theorem guard_order_admin_routes_witness :
    (edit_post (some 2) storeEmpty 7 none).response = Response.abort 403 ∧
    (delete_post (some 2) storeEmpty 7).response = Response.abort 403 ∧
    (edit_post (some 1) storeEmpty 7 none).response = Response.abort 404 ∧
    (delete_post (some 1) storeEmpty 7).response = Response.abort 404 ∧
    (delete_comment none storeEmpty 7 3).response = Response.abort 404 := by
  have h := guard_order_admin_routes (some 2) storeEmpty 7 7 3 none
  have h1 := h.1 (by decide)
  have h2 := (guard_order_admin_routes (some 1) storeEmpty 7 7 3 none).2.1 (by decide)
  have h3 := (guard_order_admin_routes none storeEmpty 7 7 3 none).2.2 (by decide)
  exact ⟨h1.1, h1.2, h2.1, h2.2, h3⟩

/-- C3: for a validated (email, password) submission, login succeeds — the
session becomes the matching user's and the caller is redirected to the post
list — iff a user with that email exists whose stored hash verifies the
password; otherwise exactly one message is flashed, the caller is redirected
back to the login form, and neither session nor store changes.  The email
uniqueness constraint of the `user` table is the hypothesis. -/
theorem login_iff_email_and_hash (verify : String → String → Bool)
    (current : Option Nat) (s : Store) (email password : String)
    (hu : emailsUnique s) :
    (∃ u ∈ s.users, u.email = email ∧ verify u.password password = true ∧
      login verify current s (some (email, password))
        = ⟨Response.redirect "/", [], some u.id, s⟩) ∨
    ((∀ u ∈ s.users, u.email = email → verify u.password password = false) ∧
      ∃ m, login verify current s (some (email, password))
        = ⟨Response.redirect "/login", [m], current, s⟩) := by
  cases hfind : s.users.find? (fun u => u.email == email) with
  | none =>
      refine Or.inr ⟨fun u hm he => ?_,
        ⟨"That email does not exist. Please try again.", by simp [login, hfind]⟩⟩
      exact absurd he (by simpa using List.find?_eq_none.mp hfind u hm)
  | some u =>
      have hmem : u ∈ s.users := List.mem_of_find?_eq_some hfind
      have heq : u.email = email := by
        have := List.find?_some hfind
        simpa using this
      cases hv : verify u.password password with
      | true =>
          exact Or.inl ⟨u, hmem, heq, hv, by simp [login, hfind, hv]⟩
      | false =>
          refine Or.inr ⟨fun u2 hm2 he2 => ?_,
            ⟨"Invalid password. Please try again.", by simp [login, hfind, hv]⟩⟩
          have : u2 = u := hu u2 hm2 u hmem (by rw [he2, heq])
          rw [this]
          exact hv

/-- Witness for C3: in `store1` with the concrete verifier, submitting the
admin's email with the matching password lands in the success branch. -/
theorem login_iff_email_and_hash_witness :
    (∃ u ∈ store1.users, u.email = "admin@blog.com" ∧
      verifyW u.password "pw" = true ∧
      login verifyW none store1 (some ("admin@blog.com", "pw"))
        = ⟨Response.redirect "/", [], some u.id, store1⟩) ∨
    ((∀ u ∈ store1.users, u.email = "admin@blog.com" →
        verifyW u.password "pw" = false) ∧
      ∃ m, login verifyW none store1 (some ("admin@blog.com", "pw"))
        = ⟨Response.redirect "/login", [m], none, store1⟩) :=
  login_iff_email_and_hash verifyW none store1 "admin@blog.com" "pw" (by decide)

/-- C4: on the delete-comment route, a missing comment id gives 404 to every
caller (the lookup runs first); when the comment exists, it is deleted with
a redirect to the parent post exactly when the caller is its author, and
every other caller gets 403 with the comment still in the store. -/
theorem delete_comment_owner_gate (current : Option Nat) (s : Store)
    (cid pid : Nat) :
    (s.comments.find? (fun c => c.id == cid) = none →
      delete_comment current s cid pid = ⟨Response.abort 404, [], current, s⟩) ∧
    (∀ c, s.comments.find? (fun x => x.id == cid) = some c →
      (current = some c.author_id →
        delete_comment current s cid pid
          = ⟨Response.redirect (url_show_post pid), [], current,
             { s with comments := s.comments.filter (fun x => !(x.id == cid)) }⟩) ∧
      (current ≠ some c.author_id →
        delete_comment current s cid pid = ⟨Response.abort 403, [], current, s⟩ ∧
        c ∈ s.comments)) := by
  refine ⟨fun h => by simp [delete_comment, only_commenter, h], fun c hc => ⟨fun ho => ?_, fun ho => ?_⟩⟩
  · subst ho
    simp [delete_comment, only_commenter, hc, delete_comment_body]
  · have hb : (current == some c.author_id) = false := by simpa using ho
    exact ⟨by simp [delete_comment, only_commenter, hc, hb],
           List.mem_of_find?_eq_some hc⟩

/-- Witness for C4: the admin (user 1) is not the author of comment 1 in
`store1` (user 2 is), so the delete is refused with 403 and the comment
survives. -/
theorem delete_comment_owner_gate_witness :
    delete_comment (some 1) store1 1 1 = ⟨Response.abort 403, [], some 1, store1⟩ ∧
    (⟨1, "nice", 2, 1⟩ : Comment) ∈ store1.comments :=
  ((delete_comment_owner_gate (some 1) store1 1 1).2 ⟨1, "nice", 2, 1⟩
    (by decide)).2 (by decide)

/-- C5: a validated comment submission on an existing post's page by an
anonymous visitor persists nothing — the store is returned unchanged — and
the visitor is flashed the must-login message and redirected to the login
page. -/
theorem anonymous_comment_never_persisted (s : Store) (pid : Nat)
    (text : String) (post : BlogPost)
    (hfind : s.posts.find? (fun p => p.id == pid) = some post) :
    show_post none s pid (some text)
      = ⟨Response.redirect "/login",
         ["You need to login or register to comment."], none, s⟩ := by
  simp [show_post, hfind]

/-- Witness for C5 on the concrete store. -/
theorem anonymous_comment_never_persisted_witness :
    show_post none store1 1 (some "hello")
      = ⟨Response.redirect "/login",
         ["You need to login or register to comment."], none, store1⟩ :=
  anonymous_comment_never_persisted store1 1 "hello" postW (by decide)

/-- C6: a validated registration whose email already belongs to a stored user
creates nothing — the store, session and hash function are untouched: the
result is a flash plus redirect to login, and it is identical for any two
password-hash functions, showing no hash of the submission is ever used. -/
theorem duplicate_email_registration (g g2 : String → String)
    (current : Option Nat) (s : Store) (f : RegisterForm)
    (hex : ∃ u ∈ s.users, u.email = f.email) :
    register g current s (some f)
      = ⟨Response.redirect "/login",
         ["User already exists, please log in."], current, s⟩ ∧
    register g2 current s (some f) = register g current s (some f) := by
  obtain ⟨u, hm, he⟩ := hex
  cases hfind : s.users.find? (fun x => x.email == f.email) with
  | none =>
      exfalso
      have := List.find?_eq_none.mp hfind u hm
      simp [he] at this
  | some v =>
      constructor <;> simp [register, hfind]

/-- Witness for C6: re-registering the admin's email in `store1` with two
different hash functions. -/
theorem duplicate_email_registration_witness :
    register (fun p => p ++ "X") none store1
        (some ⟨"Admin", "admin@blog.com", "pw"⟩)
      = ⟨Response.redirect "/login",
         ["User already exists, please log in."], none, store1⟩ ∧
    register (fun p => p ++ "Y") none store1
        (some ⟨"Admin", "admin@blog.com", "pw"⟩)
      = register (fun p => p ++ "X") none store1
          (some ⟨"Admin", "admin@blog.com", "pw"⟩) :=
  duplicate_email_registration (fun p => p ++ "X") (fun p => p ++ "Y") none
    store1 ⟨"Admin", "admin@blog.com", "pw"⟩ ⟨⟨1, "Admin", "admin@blog.com", "H1"⟩, by decide, by decide⟩

/-- C7: a validated registration with a fresh email inserts exactly one new
user whose password column holds the hash of the submitted password, logs
that user in (session = the new id) and redirects to the post list; under
the hash primitive's guarantee of never returning its input, the stored
password differs from the plaintext. -/
theorem fresh_email_registration (g : String → String) (current : Option Nat)
    (s : Store) (f : RegisterForm)
    (hfresh : ∀ u ∈ s.users, u.email ≠ f.email) :
    register g current s (some f)
      = ⟨Response.redirect "/", [], some s.nextUserId,
         { s with
            users := s.users ++ [⟨s.nextUserId, f.name, f.email, g f.password⟩],
            nextUserId := s.nextUserId + 1 }⟩ ∧
    ((∀ p, g p ≠ p) →
      (User.mk s.nextUserId f.name f.email (g f.password)).password ≠ f.password) := by
  have hfind : s.users.find? (fun x => x.email == f.email) = none := by
    rw [List.find?_eq_none]
    intro u hm
    simp [hfresh u hm]
  exact ⟨by simp [register, hfind], fun hg => hg f.password⟩

/-- Witness for C7: registering a fresh email in `store1` with a concrete
hash function. -/
theorem fresh_email_registration_witness :
    register (fun p => "HASH:" ++ p) none store1
        (some ⟨"Cara", "cara@blog.com", "pw"⟩)
      = ⟨Response.redirect "/", [], some store1.nextUserId,
         { store1 with
            users := store1.users ++
              [⟨store1.nextUserId, "Cara", "cara@blog.com",
                (fun p => "HASH:" ++ p) "pw"⟩],
            nextUserId := store1.nextUserId + 1 }⟩ ∧
    ((∀ p, (fun p => "HASH:" ++ p) p ≠ p) →
      (User.mk store1.nextUserId "Cara" "cara@blog.com"
        ((fun p => "HASH:" ++ p) "pw")).password ≠ "pw") :=
  fresh_email_registration (fun p => "HASH:" ++ p) none store1
    ⟨"Cara", "cara@blog.com", "pw"⟩ (by decide)

/-- C8 counterexample: the claim as stated is false on a valid edit whose new
title duplicates a different post's title.  In `store2` the admin submits a
valid edit of post 1 retitling it "Second" — the title of post 2; the unique
constraint on `BlogPost.title` makes the commit fail, so the response is a
server error, not the claimed redirect to the post's view page, and the
store is unchanged. -/
theorem edit_post_title_conflict :
    (edit_post (some 1) store2 1 (some ⟨"Second", "s2", "i2", "b2"⟩)).response
      = Response.serverError ∧
    (edit_post (some 1) store2 1 (some ⟨"Second", "s2", "i2", "b2"⟩)).response
      ≠ Response.redirect (url_show_post 1) ∧
    (edit_post (some 1) store2 1 (some ⟨"Second", "s2", "i2", "b2"⟩)).store
      = store2 := by
  decide

/-- C8 (amended): for a valid admin edit of an existing post whose submitted
title does not duplicate a different post's title, the stored posts are
rewritten with `apply_edit`, which changes only the title, subtitle, image
URL and body of the matching post — its id, publication date and author
reference are untouched — and the caller is redirected to the post's view
page; the date column is stamped with today's date only by post creation
(`add_new_post`, likewise under a fresh title). -/
theorem edit_post_frame (s : Store) (pid : Nat) (f : PostForm)
    (post : BlogPost)
    (hfind : s.posts.find? (fun p => p.id == pid) = some post)
    (hti : s.posts.any (fun p => (!(p.id == post.id)) && p.title == f.title) = false) :
    edit_post (some 1) s pid (some f)
      = ⟨Response.redirect (url_show_post post.id), [], some 1,
         { s with posts := s.posts.map (apply_edit f post.id) }⟩ ∧
    (∀ p : BlogPost,
      (apply_edit f post.id p).id = p.id ∧
      (apply_edit f post.id p).date = p.date ∧
      (apply_edit f post.id p).author_id = p.author_id) ∧
    (∀ (today : String) (s2 : Store) (f2 : PostForm),
      s2.posts.any (fun p => p.title == f2.title) = false →
      add_new_post today (some 1) s2 (some f2)
        = ⟨Response.redirect "/", [], some 1,
           { s2 with
              posts := s2.posts ++
                [⟨s2.nextPostId, f2.title, f2.subtitle, today, f2.body,
                  f2.img_url, 1⟩],
              nextPostId := s2.nextPostId + 1 }⟩) := by
  refine ⟨?_, ?_, ?_⟩
  · simp [edit_post, admin_only, edit_post_body, hfind, hti]
  · intro p
    by_cases h : p.id = post.id
    · simp [apply_edit, h]
    · simp [apply_edit, h]
  · intro today s2 f2 h2
    simp [add_new_post, admin_only, add_new_post_body, h2]

/-- Witness for C8: the admin edits post 1 of `store1` with `formW`, and
creates a fresh-titled post in the empty store; the frame facts are
instantiated at the stored post row. -/
theorem edit_post_frame_witness :
    edit_post (some 1) store1 1 (some formW)
      = ⟨Response.redirect (url_show_post postW.id), [], some 1,
         { store1 with posts := store1.posts.map (apply_edit formW postW.id) }⟩ ∧
    (apply_edit formW postW.id postW).id = postW.id ∧
    (apply_edit formW postW.id postW).date = postW.date ∧
    (apply_edit formW postW.id postW).author_id = postW.author_id ∧
    add_new_post "June 01, 2025" (some 1) storeEmpty (some formW)
      = ⟨Response.redirect "/", [], some 1,
         { storeEmpty with
            posts := storeEmpty.posts ++
              [⟨storeEmpty.nextPostId, formW.title, formW.subtitle,
                "June 01, 2025", formW.body, formW.img_url, 1⟩],
            nextPostId := storeEmpty.nextPostId + 1 }⟩ := by
  have h := edit_post_frame store1 1 formW postW (by decide) (by decide)
  exact ⟨h.1, (h.2.1 postW).1, (h.2.1 postW).2.1, (h.2.1 postW).2.2,
         h.2.2 "June 01, 2025" storeEmpty formW (by decide)⟩

/-- C9: a POST to the contact handler always completes with a render of the
contact page and an unchanged store, whatever the SMTP outcome; success
flashes the success message, and any transport exception is caught and
flashed with the exception's text appended to the failure message. -/
theorem contact_completes (r : Except String Unit) (current : Option Nat)
    (s : Store) :
    (contact (some r) current s).response = Response.render "contact.html" ∧
    (contact (some r) current s).store = s ∧
    (r = Except.ok () →
      (contact (some r) current s).flashes
        = ["Your message was sent successfully!"]) ∧
    (∀ e, r = Except.error e →
      (contact (some r) current s).flashes
        = ["❌ Failed to send message: " ++ e]) := by
  cases r with
  | ok u => exact ⟨rfl, rfl, fun _ => rfl, fun e he => nomatch he⟩
  | error e =>
      refine ⟨rfl, rfl, ?_, ?_⟩
      · intro h
        exact nomatch h
      · intro e2 he
        injection he with h2
        subst h2
        rfl

/-- Witness for C9 at a concrete failing SMTP outcome. -/
theorem contact_completes_witness :
    (contact (some (Except.error "SMTPAuthenticationError")) none store1).response
      = Response.render "contact.html" ∧
    (contact (some (Except.error "SMTPAuthenticationError")) none store1).store
      = store1 ∧
    (contact (some (Except.error "SMTPAuthenticationError")) none store1).flashes
      = ["❌ Failed to send message: " ++ "SMTPAuthenticationError"] := by
  have h := contact_completes (Except.error "SMTPAuthenticationError") none store1
  exact ⟨h.1, h.2.1, h.2.2.2 "SMTPAuthenticationError" rfl⟩

end PowerBlog
